import Mathlib

/-!
# Verification of the `optics-rs` composition core

Shallow embedding of the capability-trait variant of the library
(`src/optics/**`, `src/extensions/**`, `src/base/**`).

Modelling conventions:
* Rust `Result<T, E>` is `Except E T`; `Result::map_err` is `mapErr`.
* `Infallible` is the uninhabited type `Empty`.
* A Rust value implementing `HasGetter<S, A> + HasSetter<S, A>` (the bound
  of the `Prism<S, A>` kind trait) is a `POptic S A GE` record holding the
  two capability functions; `HasSetter` mutation of `&mut S` is modelled as
  a function `S → A → S` returning the updated source.
* `Lens<S, A>` is `POptic S A Empty` (its `GetterError` is `Infallible`);
  `FallibleIso<S, A>` is `FOptic S A GE RE` (getter + setter + reverse);
  `Iso<S, A>` is `FOptic S A Empty Empty`.
-/

namespace OpticsRS

/-- Rust `Result::map_err`: apply `f` to the error of an `Except`. -/
def mapErr {E E' A : Type} (f : E → E') : Except E A → Except E' A
  | .error e => .error (f e)
  | .ok a => .ok a

/-- A value with the `HasGetter<S, A> + HasSetter<S, A>` capabilities —
the blanket bound of the `Prism<S, A>` kind trait (`src/optics/prism/mod.rs`). -/
structure POptic (S A GE : Type) where
  try_get : S → Except GE A
  set : S → A → S

/-- A value with only the `HasGetter<S, A>` capability — the blanket bound
of the `PartialGetter<S, A>` kind trait. -/
structure PGetter (S A GE : Type) where
  try_get : S → Except GE A

/-- A value with only the `HasSetter<S, A>` capability — the blanket bound
of the `Setter<S, A>` kind trait. -/
structure WSetter (S A : Type) where
  set : S → A → S

/-- A value with `HasGetter + HasSetter + HasReverseGet` — the blanket bound
of the `FallibleIso<S, A>` kind trait. -/
structure FOptic (S A GE RE : Type) where
  try_get : S → Except GE A
  set : S → A → S
  try_reverse_get : A → Except RE S

/-- `Lens<S, A>`: `HasGetter` with `GetterError = Infallible`, plus `HasSetter`. -/
abbrev Lens (S A : Type) := POptic S A Empty

/-- `Iso<S, A>`: infallible getter, setter, and infallible reverse getter. -/
abbrev Iso (S A : Type) := FOptic S A Empty Empty

/-- Blanket `HasTotalGetter::get` (`src/extensions/total_getter.rs`): for an
optic whose `GetterError` is `Infallible`, `get` matches `try_get` on its only
inhabitable branch. -/
def totalGet {S A : Type} (tg : S → Except Empty A) (s : S) : A :=
  match tg s with
  | .ok v => v
  | .error e => e.elim

/-- Blanket `HasTotalReverseGet::reverse_get` (`src/extensions/total_reverse_get.rs`). -/
def totalReverseGet {S A : Type} (rv : A → Except Empty S) (a : A) : S :=
  match rv a with
  | .ok s => s
  | .error e => e.elim

/-- Blanket `HasOver::over` (`src/extensions/over.rs`): read the focus, and on
success write back `f` of it; on a failed read the source is untouched. -/
def over {S A GE : Type} (o : POptic S A GE) (s : S) (f : A → A) : S :=
  match o.try_get s with
  | .ok value => o.set s (f value)
  | .error _ => s

/-- `ComposedLens` (`src/optics/lens/composed.rs`): `try_get` chains the two
infallible reads; `set` reads the intermediate with the first lens's total
getter, updates it with the second lens, and writes it back. -/
def composedLens {S I A : Type} (l1 : Lens S I) (l2 : Lens I A) : Lens S A where
  try_get s :=
    match l1.try_get s with
    | .error e => .error e
    | .ok i => l2.try_get i
  set s a := l1.set s (l2.set (totalGet l1.try_get s) a)

/-- `ComposedPrism` (`src/optics/prism/composed.rs`): `try_get` maps each
stage's error through its mapper and short-circuits; `set` re-reads the
intermediate and, only if that read succeeds, threads the write through. -/
def composedPrism {S I A GE1 GE2 E : Type} (p1 : POptic S I GE1) (p2 : POptic I A GE2)
    (error_fn_1 : GE1 → E) (error_fn_2 : GE2 → E) : POptic S A E where
  try_get s :=
    match mapErr error_fn_1 (p1.try_get s) with
    | .error e => .error e
    | .ok i => mapErr error_fn_2 (p2.try_get i)
  set s a :=
    match mapErr error_fn_1 (p1.try_get s) with
    | .ok i => p1.set s (p2.set i a)
    | .error _ => s

/-- `ComposedPartialGetter` (`src/optics/partial_getter/composed.rs`). -/
def composedPartialGetter {S I A GE1 GE2 E : Type} (pg1 : PGetter S I GE1)
    (pg2 : PGetter I A GE2) (error_fn_1 : GE1 → E) (error_fn_2 : GE2 → E) :
    PGetter S A E where
  try_get s :=
    match mapErr error_fn_1 (pg1.try_get s) with
    | .error e => .error e
    | .ok i => mapErr error_fn_2 (pg2.try_get i)

/-- `ComposedSetter` (`src/optics/setter/composed.rs`): its `HasSetter` impl
requires the first operand to be a `Prism` (read + write); the write is
dropped when the first operand's read fails. -/
def composedSetter {S I A GE : Type} (p1 : POptic S I GE) (s2 : WSetter I A) :
    WSetter S A where
  set s a :=
    match p1.try_get s with
    | .ok i => p1.set s (s2.set i a)
    | .error _ => s

/-- `ComposedFallibleIso` (`src/optics/fallible_iso/composed.rs`): forward read
and write as in `ComposedPrism` (with the getter error mappers); the reverse
read applies the second operand's reverse first, then the first operand's,
each mapped by its reverse error mapper. -/
def composedFallibleIso {S I A GE1 GE2 RE1 RE2 GE RE : Type}
    (fi1 : FOptic S I GE1 RE1) (fi2 : FOptic I A GE2 RE2)
    (getter_error_fn_1 : GE1 → GE) (getter_error_fn_2 : GE2 → GE)
    (reverse_error_fn_1 : RE1 → RE) (reverse_error_fn_2 : RE2 → RE) :
    FOptic S A GE RE where
  try_get s :=
    match mapErr getter_error_fn_1 (fi1.try_get s) with
    | .error e => .error e
    | .ok i => mapErr getter_error_fn_2 (fi2.try_get i)
  set s a :=
    match mapErr getter_error_fn_1 (fi1.try_get s) with
    | .ok i => fi1.set s (fi2.set i a)
    | .error _ => s
  try_reverse_get a :=
    match mapErr reverse_error_fn_2 (fi2.try_reverse_get a) with
    | .error e => .error e
    | .ok i => mapErr reverse_error_fn_1 (fi1.try_reverse_get i)

mutual

/-- Step-indexed model of `ComposedIso::try_reverse_get`
(`src/optics/iso/composed.rs`): its body is `Ok(self.reverse_get(value))`,
where `reverse_get` is the blanket `HasTotalReverseGet` method — which in turn
calls `self.try_reverse_get(value)` back. The two operands `i1`, `i2` are
carried (they are the fields of `self`) but the source never reaches them.
`fuel` counts call steps; `none` means the computation has not produced a
result within `fuel` calls. -/
def composedIsoTryReverseGetFuel {S I A : Type} (i1 : Iso S I) (i2 : Iso I A)
    (fuel : Nat) (a : A) : Option (Except Empty S) :=
  match fuel with
  | 0 => none
  | n + 1 => (composedIsoReverseGetFuel i1 i2 n a).map Except.ok

/-- Step-indexed model of the blanket `HasTotalReverseGet::reverse_get`
(`src/extensions/total_reverse_get.rs`) as instantiated at `ComposedIso`:
it matches on `self.try_reverse_get(value)` and returns the `Ok` payload. -/
def composedIsoReverseGetFuel {S I A : Type} (i1 : Iso S I) (i2 : Iso I A)
    (fuel : Nat) (a : A) : Option S :=
  match fuel with
  | 0 => none
  | n + 1 =>
    match composedIsoTryReverseGetFuel i1 i2 n a with
    | some (.ok s) => some s
    | some (.error e) => e.elim
    | none => none

end

/-- `PrismImpl`'s `HasGetter`/`HasSetter` impls (`src/optics/prism/wrapper.rs`):
both forward to the wrapped optic unchanged. -/
def PrismImpl {S A GE : Type} (p : POptic S A GE) : POptic S A GE where
  try_get s := p.try_get s
  set s a := p.set s a

/-- `LensImpl`'s impls (`src/optics/lens/wrapper.rs`): `try_get` returns
`Ok(self.0.get(source))` via the wrapped lens's total getter; `set` forwards. -/
def LensImpl {S A : Type} (l : Lens S A) : Lens S A where
  try_get s := .ok (totalGet l.try_get s)
  set s a := l.set s a

/-- `IsoImpl`'s impls (`src/optics/iso/wrapper.rs`): `try_get` and
`try_reverse_get` wrap the inner total operations in `Ok`; `set` forwards. -/
def IsoImpl {S A : Type} (i : Iso S A) : Iso S A where
  try_get s := .ok (totalGet i.try_get s)
  set s a := i.set s a
  try_reverse_get a := .ok (totalReverseGet i.try_reverse_get a)

/-- `FallibleIsoImpl`'s impls (`src/optics/fallible_iso/wrapper.rs`): all three
operations forward to the wrapped optic unchanged. -/
def FallibleIsoImpl {S A GE RE : Type} (fi : FOptic S A GE RE) : FOptic S A GE RE where
  try_get s := fi.try_get s
  set s a := fi.set s a
  try_reverse_get a := fi.try_reverse_get a

/-- An infallible `try_get` returns `Ok` of the derived total `get`. -/
theorem try_get_eq_ok_totalGet {S A : Type} (tg : S → Except Empty A) (s : S) :
    tg s = .ok (totalGet tg s) := by
  unfold totalGet
  cases h : tg s with
  | ok v => rfl
  | error e => exact e.elim

/-- An infallible `try_reverse_get` returns `Ok` of the derived total `reverse_get`. -/
theorem try_reverse_get_eq_ok_totalReverseGet {S A : Type} (rv : A → Except Empty S)
    (a : A) : rv a = .ok (totalReverseGet rv a) := by
  unfold totalReverseGet
  cases h : rv a with
  | ok v => rfl
  | error e => exact e.elim

/-- Concrete fixture: the `Option`-style prism (`try_get` fails on `none`,
`set` always rebuilds the `some` variant). Used only to instantiate theorems. -/
def somePrism : POptic (Option Nat) Nat Unit where
  try_get s :=
    match s with
    | some n => .ok n
    | none => .error ()
  set _ a := some a

/-- Concrete fixture: the identity prism on `Nat` with a `Unit` error type. -/
def idPrism : POptic Nat Nat Unit where
  try_get s := .ok s
  set _ a := a

/-- Concrete fixture: the first-component lens on `Nat × Nat`. -/
def fstLens : Lens (Nat × Nat) Nat where
  try_get s := .ok s.1
  set s a := (a, s.2)

/-- Concrete fixture: the identity lens on `Nat`. -/
def idLens : Lens Nat Nat where
  try_get s := .ok s
  set _ a := a

/-- Concrete fixture: the identity setter on `Nat`. -/
def idSetter : WSetter Nat Nat where
  set _ a := a

/-- Concrete fixture: a fallible iso on `Nat` that succeeds only on even
numbers (halving forward, doubling backward). -/
def halfFI : FOptic Nat Nat Unit Unit where
  try_get s := if s % 2 = 0 then .ok (s / 2) else .error ()
  set _ a := 2 * a
  try_reverse_get a := .ok (2 * a)

/-- Concrete fixture: the identity fallible iso on `Nat`. -/
def idFI : FOptic Nat Nat Unit Unit where
  try_get s := .ok s
  set _ a := a
  try_reverse_get a := .ok a

/-- Concrete fixture: a partial getter on `Option Nat`. -/
def somePG : PGetter (Option Nat) Nat Unit where
  try_get s :=
    match s with
    | some n => .ok n
    | none => .error ()

/-- Concrete fixture: the identity partial getter on `Nat`. -/
def idPG : PGetter Nat Nat Unit where
  try_get s := .ok s

/-- C1: for the three composed optics whose `set` must first read the
intermediate value (`ComposedPrism`, `ComposedFallibleIso`, `ComposedSetter`),
if the first operand's `try_get` fails on `s`, then `set s a` returns `s`
unchanged — the written value is silently dropped and no error is reported
(`set` has no error channel at all). -/
theorem composed_set_noop_on_failed_first_read
    {S1 I1 A1 GE1 GE2 E : Type} {S2 I2 A2 GE3 GE4 RE1 RE2 GE RE : Type}
    {S3 I3 A3 GE5 : Type}
    (p1 : POptic S1 I1 GE1) (p2 : POptic I1 A1 GE2) (f1 : GE1 → E) (f2 : GE2 → E)
    (fi1 : FOptic S2 I2 GE3 RE1) (fi2 : FOptic I2 A2 GE4 RE2)
    (gf1 : GE3 → GE) (gf2 : GE4 → GE) (rf1 : RE1 → RE) (rf2 : RE2 → RE)
    (q1 : POptic S3 I3 GE5) (st2 : WSetter I3 A3)
    (s1 : S1) (a1 : A1) (s2 : S2) (a2 : A2) (s3 : S3) (a3 : A3)
    (e1 : GE1) (e2 : GE3) (e3 : GE5)
    (h1 : p1.try_get s1 = .error e1)
    (h2 : fi1.try_get s2 = .error e2)
    (h3 : q1.try_get s3 = .error e3) :
    (composedPrism p1 p2 f1 f2).set s1 a1 = s1 ∧
    (composedFallibleIso fi1 fi2 gf1 gf2 rf1 rf2).set s2 a2 = s2 ∧
    (composedSetter q1 st2).set s3 a3 = s3 := by
  refine ⟨?_, ?_, ?_⟩
  · simp [composedPrism, h1, mapErr]
  · simp [composedFallibleIso, h2, mapErr]
  · simp [composedSetter, h3]

/-- Witness for C1 at concrete inputs: the first operands all fail to read
(`none` for the prism/setter compositions, the odd number `1` for the
fallible-iso composition), and `set` leaves the sources unchanged. -/
theorem composed_set_noop_on_failed_first_read_witness :
    (composedPrism somePrism idPrism id id).set none 7 = none ∧
    (composedFallibleIso halfFI idFI id id id id).set 1 7 = 1 ∧
    (composedSetter somePrism idSetter).set none 7 = none :=
  composed_set_noop_on_failed_first_read
    somePrism idPrism id id halfFI idFI id id id id somePrism idSetter
    none 7 1 7 none 7 () () () rfl rfl rfl

/-- C2: when the first operand's read succeeds with intermediate `i`, the
composed `set` threads the write: `ComposedPrism` sets `a` into `i` via the
second operand and writes the result back via the first; `ComposedLens` does
the same with `i = l1.get s` unconditionally. -/
theorem composed_set_threads_intermediate
    {S1 I1 A1 GE1 GE2 E S2 I2 A2 : Type}
    (p1 : POptic S1 I1 GE1) (p2 : POptic I1 A1 GE2) (f1 : GE1 → E) (f2 : GE2 → E)
    (l1 : Lens S2 I2) (l2 : Lens I2 A2) (s1 : S1) (a1 : A1) (i : I1)
    (s2 : S2) (a2 : A2)
    (h : p1.try_get s1 = .ok i) :
    (composedPrism p1 p2 f1 f2).set s1 a1 = p1.set s1 (p2.set i a1) ∧
    (composedLens l1 l2).set s2 a2 =
      l1.set s2 (l2.set (totalGet l1.try_get s2) a2) := by
  exact ⟨by simp [composedPrism, h, mapErr], rfl⟩

/-- Witness for C2: `somePrism.try_get (some 3) = Ok 3`, and the composed
prism's `set` rebuilds through both operands; the lens part is checked on
`fstLens` composed with `idLens`. -/
theorem composed_set_threads_intermediate_witness :
    (composedPrism somePrism idPrism id id).set (some 3) 7 =
      somePrism.set (some 3) (idPrism.set 3 7) ∧
    (composedLens fstLens idLens).set (2, 5) 7 =
      fstLens.set (2, 5) (idLens.set (totalGet fstLens.try_get (2, 5)) 7) :=
  composed_set_threads_intermediate somePrism idPrism id id fstLens idLens
    (some 3) 7 3 (2, 5) 7 rfl

/-- C3: the three fallible composed readers (`ComposedPartialGetter`,
`ComposedPrism`, `ComposedFallibleIso`) map and short-circuit errors: a first
stage error `e1` yields `Err (error_fn_1 e1)` (for every second operand — the
second stage cannot influence the result); a second stage error `e2` after a
successful first read yields `Err (error_fn_2 e2)`; two successes yield `Ok`
of the second stage's value. -/
theorem composed_try_get_short_circuit
    {S1 I1 A1 GE1 GE2 E1 : Type} {S2 I2 A2 GE3 GE4 E2 : Type}
    {S3 I3 A3 GE5 GE6 E3 RE1 RE2 RE : Type}
    (pg1 : PGetter S1 I1 GE1) (pg2 : PGetter I1 A1 GE2)
    (f1 : GE1 → E1) (f2 : GE2 → E1)
    (p1 : POptic S2 I2 GE3) (p2 : POptic I2 A2 GE4)
    (g1 : GE3 → E2) (g2 : GE4 → E2)
    (fi1 : FOptic S3 I3 GE5 RE1) (fi2 : FOptic I3 A3 GE6 RE2)
    (k1 : GE5 → E3) (k2 : GE6 → E3) (r1 : RE1 → RE) (r2 : RE2 → RE)
    (s1 : S1) (s2 : S2) (s3 : S3) :
    (∀ e1, pg1.try_get s1 = .error e1 →
      (composedPartialGetter pg1 pg2 f1 f2).try_get s1 = .error (f1 e1)) ∧
    (∀ i e2, pg1.try_get s1 = .ok i → pg2.try_get i = .error e2 →
      (composedPartialGetter pg1 pg2 f1 f2).try_get s1 = .error (f2 e2)) ∧
    (∀ i a, pg1.try_get s1 = .ok i → pg2.try_get i = .ok a →
      (composedPartialGetter pg1 pg2 f1 f2).try_get s1 = .ok a) ∧
    (∀ e1, p1.try_get s2 = .error e1 →
      (composedPrism p1 p2 g1 g2).try_get s2 = .error (g1 e1)) ∧
    (∀ i e2, p1.try_get s2 = .ok i → p2.try_get i = .error e2 →
      (composedPrism p1 p2 g1 g2).try_get s2 = .error (g2 e2)) ∧
    (∀ i a, p1.try_get s2 = .ok i → p2.try_get i = .ok a →
      (composedPrism p1 p2 g1 g2).try_get s2 = .ok a) ∧
    (∀ e1, fi1.try_get s3 = .error e1 →
      (composedFallibleIso fi1 fi2 k1 k2 r1 r2).try_get s3 = .error (k1 e1)) ∧
    (∀ i e2, fi1.try_get s3 = .ok i → fi2.try_get i = .error e2 →
      (composedFallibleIso fi1 fi2 k1 k2 r1 r2).try_get s3 = .error (k2 e2)) ∧
    (∀ i a, fi1.try_get s3 = .ok i → fi2.try_get i = .ok a →
      (composedFallibleIso fi1 fi2 k1 k2 r1 r2).try_get s3 = .ok a) := by
  refine ⟨?_, ?_, ?_, ?_, ?_, ?_, ?_, ?_, ?_⟩ <;> intros <;>
    simp_all [composedPartialGetter, composedPrism, composedFallibleIso, mapErr]

/-- Witness for C3: the first-stage-failure case on `none`, the double-success
case on `some 3`, and the second-stage-failure case of the fallible iso on `6`
(whose intermediate `3` is odd, so the second stage fails). -/
theorem composed_try_get_short_circuit_witness :
    (composedPartialGetter somePG idPG id id).try_get none = .error (id ()) ∧
    (composedPrism somePrism idPrism id id).try_get (some 3) = .ok 3 ∧
    (composedFallibleIso halfFI halfFI id id id id).try_get 6 = .error (id ()) := by
  have h := composed_try_get_short_circuit somePG idPG id id somePrism idPrism
    id id halfFI halfFI id id id id none (some 3) 6
  exact ⟨h.1 () rfl,
    h.2.2.2.2.2.1 3 3 rfl rfl,
    h.2.2.2.2.2.2.2.1 3 () rfl rfl⟩

/-- Concrete fixture: the identity iso on `Nat`. -/
def idIso : Iso Nat Nat where
  try_get s := .ok s
  set _ a := a
  try_reverse_get a := .ok a

/-- If an infallible `try_get` evaluates to `Ok v`, the derived total getter
returns `v`. -/
theorem totalGet_eq_of {S A : Type} (tg : S → Except Empty A) (s : S) (v : A)
    (h : tg s = .ok v) : totalGet tg s = v := by
  simp [totalGet, h]

/-- `ComposedLens.try_get` succeeds with the second lens's read of the first
lens's read. -/
theorem composedLens_try_get {S I A : Type} (l1 : Lens S I) (l2 : Lens I A)
    (s : S) : (composedLens l1 l2).try_get s =
      .ok (totalGet l2.try_get (totalGet l1.try_get s)) := by
  simp only [composedLens]
  rw [try_get_eq_ok_totalGet l1.try_get s]
  exact try_get_eq_ok_totalGet l2.try_get _

/-- C4 (code bug): `ComposedIso::try_reverse_get` never terminates. Its body
`Ok(self.reverse_get(value))` resolves `reverse_get` to the blanket
`HasTotalReverseGet` method, whose body calls `self.try_reverse_get(value)`
right back; the two operand isos are never consulted. In the step-indexed
model, no amount of fuel produces a result — for every fuel both mutually
recursive calls yield `none`. -/
theorem composed_iso_try_reverse_get_never_terminates
    {S I A : Type} (i1 : Iso S I) (i2 : Iso I A) (fuel : Nat) (a : A) :
    composedIsoTryReverseGetFuel i1 i2 fuel a = none ∧
    composedIsoReverseGetFuel i1 i2 fuel a = none := by
  induction fuel with
  | zero => exact ⟨rfl, rfl⟩
  | succ n ih =>
    refine ⟨?_, ?_⟩
    · simp [composedIsoTryReverseGetFuel, ih.2]
    · simp [composedIsoReverseGetFuel, ih.1]

/-- C5: if both operand lenses satisfy the two lens laws (stated through the
derived total getter), the composed lens satisfies them as well. -/
theorem composed_lens_satisfies_lens_laws
    {S I A : Type} (l1 : Lens S I) (l2 : Lens I A)
    (hgs1 : ∀ s i, totalGet l1.try_get (l1.set s i) = i)
    (hsg1 : ∀ s, l1.set s (totalGet l1.try_get s) = s)
    (hgs2 : ∀ i a, totalGet l2.try_get (l2.set i a) = a)
    (hsg2 : ∀ i, l2.set i (totalGet l2.try_get i) = i)
    (s : S) (a : A) :
    totalGet (composedLens l1 l2).try_get ((composedLens l1 l2).set s a) = a ∧
    (composedLens l1 l2).set s (totalGet (composedLens l1 l2).try_get s) = s := by
  have hget : ∀ t, totalGet (composedLens l1 l2).try_get t
      = totalGet l2.try_get (totalGet l1.try_get t) := fun t =>
    totalGet_eq_of _ _ _ (composedLens_try_get l1 l2 t)
  constructor
  · rw [hget]
    show totalGet l2.try_get
      (totalGet l1.try_get (l1.set s (l2.set (totalGet l1.try_get s) a))) = a
    rw [hgs1, hgs2]
  · rw [hget]
    show l1.set s
      (l2.set (totalGet l1.try_get s) (totalGet l2.try_get (totalGet l1.try_get s))) = s
    rw [hsg2, hsg1]

/-- Witness for C5: the first-component lens composed with the identity lens,
checked at source `(2, 5)` and value `7`. -/
theorem composed_lens_satisfies_lens_laws_witness :
    totalGet (composedLens fstLens idLens).try_get
      ((composedLens fstLens idLens).set (2, 5) 7) = 7 ∧
    (composedLens fstLens idLens).set (2, 5)
      (totalGet (composedLens fstLens idLens).try_get (2, 5)) = (2, 5) :=
  composed_lens_satisfies_lens_laws fstLens idLens
    (fun _ _ => rfl) (fun _ => rfl) (fun _ _ => rfl) (fun _ => rfl) (2, 5) 7

/-- C6: if both operand prisms reconstruct their focus on every write
(`try_get (set s a) = Ok a` for all `s`, `a`), then the composed prism
satisfies the prism law: whenever the composed `try_get s = Ok a`, setting `a`
and re-reading yields `Ok a` again. -/
theorem composed_prism_satisfies_prism_law
    {S I A GE1 GE2 E : Type}
    (p1 : POptic S I GE1) (p2 : POptic I A GE2) (f1 : GE1 → E) (f2 : GE2 → E)
    (h1 : ∀ s i, p1.try_get (p1.set s i) = .ok i)
    (h2 : ∀ i a, p2.try_get (p2.set i a) = .ok a)
    (s : S) (a : A)
    (hget : (composedPrism p1 p2 f1 f2).try_get s = .ok a) :
    (composedPrism p1 p2 f1 f2).try_get
      ((composedPrism p1 p2 f1 f2).set s a) = .ok a := by
  cases hp : p1.try_get s with
  | error e => simp [composedPrism, mapErr, hp] at hget
  | ok i =>
    have hset : (composedPrism p1 p2 f1 f2).set s a = p1.set s (p2.set i a) := by
      simp [composedPrism, mapErr, hp]
    rw [hset]
    simp [composedPrism, mapErr, h1 s (p2.set i a), h2 i a]

/-- Witness for C6: `somePrism` composed with the identity prism at source
`some 3`, focus `3`. -/
theorem composed_prism_satisfies_prism_law_witness :
    (composedPrism somePrism idPrism id id).try_get
      ((composedPrism somePrism idPrism id id).set (some 3) 3) = .ok 3 :=
  composed_prism_satisfies_prism_law somePrism idPrism id id
    (fun _ _ => rfl) (fun _ _ => rfl) (some 3) 3 rfl

/-- C7: when the getter (resp. reverse) error type is `Infallible`, the
derived total `get` (resp. `reverse_get`) returns exactly the value `v` with
`try_get s = Ok v` (resp. `try_reverse_get a = Ok v`); an error result is
impossible, so no runtime check or panic is needed. -/
theorem total_operations_extract_ok
    {S A : Type} (tg : S → Except Empty A) (rv : A → Except Empty S)
    (s : S) (a : A) :
    tg s = .ok (totalGet tg s) ∧
    (∀ v, tg s = .ok v → totalGet tg s = v) ∧
    rv a = .ok (totalReverseGet rv a) ∧
    (∀ v, rv a = .ok v → totalReverseGet rv a = v) := by
  refine ⟨try_get_eq_ok_totalGet tg s, ?_,
    try_reverse_get_eq_ok_totalReverseGet rv a, ?_⟩
  · intro v h
    simp [totalGet, h]
  · intro v h
    simp [totalReverseGet, h]

/-- Witness for C7: the total getter and total reverse getter of the identity
iso, evaluated at concrete inputs. -/
theorem total_operations_extract_ok_witness :
    idIso.try_get 2 = .ok (totalGet idIso.try_get 2) ∧
    totalGet idIso.try_get 2 = 2 ∧
    totalReverseGet idIso.try_reverse_get 3 = 3 :=
  ⟨(total_operations_extract_ok idIso.try_get idIso.try_reverse_get 2 3).1,
   (total_operations_extract_ok idIso.try_get idIso.try_reverse_get 2 3).2.1 2 rfl,
   (total_operations_extract_ok idIso.try_get idIso.try_reverse_get 2 3).2.2.2 3 rfl⟩

/-- C9: the four kind wrappers forward every capability operation unchanged:
`PrismImpl` and `FallibleIsoImpl` forward verbatim, while `LensImpl` and
`IsoImpl` re-wrap the inner total operations in `Ok`, which yields the same
`Result` value; no new failure mode is introduced. -/
theorem wrapper_impls_forward_unchanged
    {S1 A1 GE1 : Type} {S2 A2 : Type} {S3 A3 : Type} {S4 A4 GE4 RE4 : Type}
    (p : POptic S1 A1 GE1) (l : Lens S2 A2) (io : Iso S3 A3)
    (fi : FOptic S4 A4 GE4 RE4)
    (s1 : S1) (a1 : A1) (s2 : S2) (a2 : A2) (s3 : S3) (a3 : A3)
    (s4 : S4) (a4 : A4) :
    (PrismImpl p).try_get s1 = p.try_get s1 ∧
    (PrismImpl p).set s1 a1 = p.set s1 a1 ∧
    (LensImpl l).try_get s2 = l.try_get s2 ∧
    (LensImpl l).set s2 a2 = l.set s2 a2 ∧
    (IsoImpl io).try_get s3 = io.try_get s3 ∧
    (IsoImpl io).set s3 a3 = io.set s3 a3 ∧
    (IsoImpl io).try_reverse_get a3 = io.try_reverse_get a3 ∧
    (FallibleIsoImpl fi).try_get s4 = fi.try_get s4 ∧
    (FallibleIsoImpl fi).set s4 a4 = fi.set s4 a4 ∧
    (FallibleIsoImpl fi).try_reverse_get a4 = fi.try_reverse_get a4 := by
  refine ⟨rfl, rfl, ?_, rfl, ?_, rfl, ?_, rfl, rfl, rfl⟩
  · exact (try_get_eq_ok_totalGet l.try_get s2).symm
  · exact (try_get_eq_ok_totalGet io.try_get s3).symm
  · exact (try_reverse_get_eq_ok_totalReverseGet io.try_reverse_get a3).symm

/-- C10: `over` behaves as read–modify–write on a successful read and as the
identity on the source when the read fails; no error is reported either way. -/
theorem over_reads_then_writes
    {S A GE : Type} (o : POptic S A GE) (s : S) (f : A → A) :
    (∀ v, o.try_get s = .ok v → over o s f = o.set s (f v)) ∧
    (∀ e, o.try_get s = .error e → over o s f = s) := by
  constructor <;> intro x h <;> simp [over, h]

/-- Witness for C10: `over` on `somePrism` increments through `some 3` and
leaves `none` untouched. -/
theorem over_reads_then_writes_witness :
    over somePrism (some 3) (fun v => v + 1) = some 4 ∧
    over somePrism none (fun v => v + 1) = none :=
  ⟨(over_reads_then_writes somePrism (some 3) (fun v => v + 1)).1 3 rfl,
   (over_reads_then_writes somePrism none (fun v => v + 1)).2 () rfl⟩

end OpticsRS
